import Mathlib

/-!
Verification of the quote-recalculation core of the AI renovation quoter
(src/index.tsx). Numbers are modelled as exact rationals (ℚ); the
JavaScript value NaN, which `parseFloat` returns on unparseable input, is
modelled by `Option ℚ` where `none` stands for NaN. Division on ℚ is total
with `x / 0 = 0`, mirroring that JavaScript division by zero never throws
(it yields Infinity/NaN, a value on which the target equalities fail just
as they do at 0).
-/

namespace PPJobQuote

/-- A line item of a quote (interface LineItem, src/index.tsx:10-16). -/
structure LineItem where
  item : String
  quantity : ℚ
  unit : String
  rate : ℚ
  total : ℚ
deriving DecidableEq

/-- Summary block of a quote (interface QuoteSummary, src/index.tsx:18-25). -/
structure QuoteSummary where
  subtotal : ℚ
  overhead : ℚ
  contingency : ℚ
  tax : ℚ
  grandTotal : ℚ
  disclaimer : String
deriving DecidableEq

/-- A quote (interface Quote, src/index.tsx:27-30). -/
structure Quote where
  lineItems : List LineItem
  summary : QuoteSummary
deriving DecidableEq

/-- The three supported regions (type Region, src/index.tsx:56). -/
inductive Region where
  | QC_MONTREAL
  | ON_TORONTO
  | NYC
deriving DecidableEq

/-- Regional tax percentages (const TAX_RATES, src/index.tsx:58-62). -/
def TAX_RATES : Region → ℚ
  | .QC_MONTREAL => 14.975
  | .ON_TORONTO => 13
  | .NYC => 8.875

/-- The default disclaimer text used by recalculateQuote (src/index.tsx:363). -/
def defaultDisclaimer : String :=
  "This is a labor-only quote and does not include major materials."

/-- The JavaScript chain `disclaimer || quote?.summary.disclaimer || "..."`
(src/index.tsx:363): an absent or empty string is falsy and falls through. -/
def resolveDisclaimer (disclaimer : Option Quote → Option String) : Option Quote → String :=
  fun prevQuote =>
    let fromPrev : String :=
      match prevQuote with
      | some q => if q.summary.disclaimer = "" then defaultDisclaimer else q.summary.disclaimer
      | none => defaultDisclaimer
    match disclaimer prevQuote with
    | some s => if s = "" then fromPrev else s
    | none => fromPrev

/-- `disclaimer || quote?.summary.disclaimer || default` for a fixed optional
disclaimer argument and the previous quote state. -/
def resolveDisclaimerArg (disclaimer : Option String) (prevQuote : Option Quote) : String :=
  resolveDisclaimer (fun _ => disclaimer) prevQuote

/-- recalculateQuote (src/index.tsx:347-366). `overheadPercent`,
`contingencyPercent` and `currentTaxRate` are the component state the closure
reads; `prevQuote` is the `quote` state read only for the disclaimer fallback. -/
def recalculateQuote (overheadPercent contingencyPercent currentTaxRate : ℚ)
    (prevQuote : Option Quote) (lineItems : List LineItem)
    (disclaimer : Option String) : Quote :=
  let subtotal := lineItems.foldl (fun acc item => acc + item.total) 0
  let overhead := subtotal * (overheadPercent / 100)
  let contingency := subtotal * (contingencyPercent / 100)
  let preTaxTotal := subtotal + overhead + contingency
  let tax := preTaxTotal * (currentTaxRate / 100)
  let grandTotal := preTaxTotal + tax
  { lineItems := lineItems
    summary :=
      { subtotal := subtotal
        overhead := overhead
        contingency := contingency
        tax := tax
        grandTotal := grandTotal
        disclaimer := resolveDisclaimerArg disclaimer prevQuote } }

/-- An edit to one field of a line item, as dispatched by handleItemChange on
`field` (src/index.tsx:375-397). For the numeric fields the payload is the
result of `typeof value === "number" ? value : parseFloat(value)`: `none`
models NaN, `some v` a parsed number. -/
inductive FieldEdit where
  | item (s : String)
  | unit (s : String)
  | quantity (v : Option ℚ)
  | rate (v : Option ℚ)
  | total (v : Option ℚ)
deriving DecidableEq

/-- The per-item body of handleItemChange (src/index.tsx:380-397): first the
targeted field is written unless the numeric value is NaN, then the derived
field is recomputed (total from quantity × rate, or rate from total/quantity
guarded by quantity ≠ 0). The recomputation runs even when the write was
skipped, exactly as in the source. -/
def applyItemEdit (itemToUpdate : LineItem) (e : FieldEdit) : LineItem :=
  match e with
  | .item s => { itemToUpdate with item := s }
  | .unit s => { itemToUpdate with unit := s }
  | .quantity v =>
      let written : LineItem :=
        match v with
        | some numValue => { itemToUpdate with quantity := numValue }
        | none => itemToUpdate
      { written with total := written.quantity * written.rate }
  | .rate v =>
      let written : LineItem :=
        match v with
        | some numValue => { itemToUpdate with rate := numValue }
        | none => itemToUpdate
      { written with total := written.quantity * written.rate }
  | .total v =>
      let written : LineItem :=
        match v with
        | some numValue => { itemToUpdate with total := numValue }
        | none => itemToUpdate
      if written.quantity ≠ 0 then
        { written with rate := written.total / written.quantity }
      else written

/-- The default used when reading a list position; handleItemChange is only
exercised at indices of existing rows, so theorems carry `index < length`. -/
def dItem : LineItem := { item := "", quantity := 0, unit := "", rate := 0, total := 0 }

/-- handleItemChange (src/index.tsx:375-401): update the item at `index` by
`applyItemEdit`, then route the items through recalculateQuote. An index with
no row is modelled as leaving the quote unchanged. -/
def handleItemChange (overheadPercent contingencyPercent currentTaxRate : ℚ)
    (quote : Quote) (index : ℕ) (e : FieldEdit) : Quote :=
  match quote.lineItems.get? index with
  | none => quote
  | some itemToUpdate =>
      let updatedItems := quote.lineItems.set index (applyItemEdit itemToUpdate e)
      recalculateQuote overheadPercent contingencyPercent currentTaxRate
        (some quote) updatedItems none

/-- handleRateAdjust (src/index.tsx:403-420): bump one row's rate by the
adjustment percentage and recompute its total. `rateAdjustPercent` state is
always a number (it is set through `parseFloat(...) || 0`), so the isNaN
guard of the source can never fire and is not modelled. -/
def handleRateAdjust (overheadPercent contingencyPercent currentTaxRate : ℚ)
    (rateAdjustPercent : ℚ) (quote : Quote) (index : ℕ) (up : Bool) : Quote :=
  let multiplier := if up then 1 + rateAdjustPercent / 100 else 1 - rateAdjustPercent / 100
  match quote.lineItems.get? index with
  | none => quote
  | some itemToUpdate =>
      let newRate := itemToUpdate.rate * multiplier
      let updated := { itemToUpdate with rate := newRate, total := itemToUpdate.quantity * newRate }
      recalculateQuote overheadPercent contingencyPercent currentTaxRate
        (some quote) (quote.lineItems.set index updated) none

/-- handleGlobalRateAdjust (src/index.tsx:422-438): bump every row's rate by
the adjustment percentage and recompute each total. -/
def handleGlobalRateAdjust (overheadPercent contingencyPercent currentTaxRate : ℚ)
    (rateAdjustPercent : ℚ) (quote : Quote) (up : Bool) : Quote :=
  let multiplier := if up then 1 + rateAdjustPercent / 100 else 1 - rateAdjustPercent / 100
  let updatedItems := quote.lineItems.map fun item =>
    { item with rate := item.rate * multiplier, total := item.quantity * (item.rate * multiplier) }
  recalculateQuote overheadPercent contingencyPercent currentTaxRate
    (some quote) updatedItems none

/-- handleBottomLineAdjust (src/index.tsx:440-468). The `targetTotal` string
state is modelled by its parse: `none` for NaN, `some newTotal` otherwise.
A rejected input (NaN or ≤ 0) and a zero current subtotal leave the quote
unchanged; otherwise every rate and total is scaled by
targetSubtotal / currentSubtotal and the items are recalculated. -/
def handleBottomLineAdjust (overheadPercent contingencyPercent currentTaxRate : ℚ)
    (quote : Quote) (targetTotal : Option ℚ) : Quote :=
  match targetTotal with
  | none => quote
  | some newTotal =>
    if newTotal ≤ 0 then quote
    else if quote.summary.subtotal = 0 then quote
    else
      let preTaxMultiplier := 1 + overheadPercent / 100 + contingencyPercent / 100
      let taxMultiplier := 1 + currentTaxRate / 100
      let targetSubtotal := (newTotal / taxMultiplier) / preTaxMultiplier
      let scaleFactor := targetSubtotal / quote.summary.subtotal
      let updatedItems := quote.lineItems.map fun item =>
        { item with rate := item.rate * scaleFactor, total := item.total * scaleFactor }
      recalculateQuote overheadPercent contingencyPercent currentTaxRate
        (some quote) updatedItems none

/-- addManualItem (src/index.tsx:471-476): append a fresh blank row. -/
def addManualItem (overheadPercent contingencyPercent currentTaxRate : ℚ)
    (quote : Quote) : Quote :=
  let newItem : LineItem := { item := "New Item", quantity := 1, unit := "each", rate := 0, total := 0 }
  recalculateQuote overheadPercent contingencyPercent currentTaxRate
    (some quote) (quote.lineItems ++ [newItem]) none

/-- handleRemoveItem (src/index.tsx:478-482): drop the row at the index
(`filter((_, index) => index !== indexToRemove)`, which is List.eraseIdx). -/
def handleRemoveItem (overheadPercent contingencyPercent currentTaxRate : ℚ)
    (quote : Quote) (indexToRemove : ℕ) : Quote :=
  recalculateQuote overheadPercent contingencyPercent currentTaxRate
    (some quote) (quote.lineItems.eraseIdx indexToRemove) none

/-- A saved rate-book entry (interface ContractorRate, src/index.tsx:32-35). -/
structure ContractorRate where
  rate : ℚ
  unit : String
deriving DecidableEq

/-- The rate-book key of an item: `item.trim().toLowerCase()`
(src/index.tsx:509). -/
def canonKey (s : String) : String := s.trim.map Char.toLower

/-- applyContractorRates (src/index.tsx:505-525): when the rate book is
non-empty, overwrite rate/unit of every row whose key has a saved entry and
recompute its total, then recalculate. The keyed object is modelled as an
association list. -/
def applyContractorRates (overheadPercent contingencyPercent currentTaxRate : ℚ)
    (contractorRates : List (String × ContractorRate)) (quote : Quote) : Quote :=
  if contractorRates = [] then quote
  else
    let updatedItems := quote.lineItems.map fun item =>
      match contractorRates.lookup (canonKey item.item) with
      | some saved =>
          { item with rate := saved.rate, unit := saved.unit, total := item.quantity * saved.rate }
      | none => item
    recalculateQuote overheadPercent contingencyPercent currentTaxRate
      (some quote) updatedItems none

/-- A saved project snapshot (interface SavedProject, src/index.tsx:41-53). -/
structure SavedProject where
  id : String
  name : String
  filePreview : String
  fileName : String
  fileType : String
  roomType : String
  region : String
  scope : String
  quote : Option Quote
  overheadPercent : ℚ
  contingencyPercent : ℚ
deriving DecidableEq

/-- The list update performed by saveProject (src/index.tsx:305-306): drop
every project with the new id, append the new snapshot, and sort the whole
list by name (Array.sort with a name comparator; the name order itself is
immaterial to the claims, which are permutation-invariant). -/
def saveProject (savedProjects : List SavedProject) (newProject : SavedProject) : List SavedProject :=
  let otherProjects := savedProjects.filter fun p => p.id ≠ newProject.id
  (otherProjects ++ [newProject]).mergeSort fun a b => a.name ≤ b.name

/-- The quote-relevant component state of the App (src/index.tsx:128-151). -/
structure AppState where
  quote : Option Quote
  overheadPercent : ℚ
  contingencyPercent : ℚ
  region : Region
  rateAdjustPercent : ℚ
  contractorRates : List (String × ContractorRate)
  targetTotal : Option ℚ

/-- The user actions that produce a new quote state. The percentage and
region setters include the recalculation performed by the effect on
[overheadPercent, contingencyPercent, region] (src/index.tsx:368-373). -/
inductive QuoteOp where
  | itemChange (index : ℕ) (e : FieldEdit)
  | rateAdjust (index : ℕ) (up : Bool)
  | globalRateAdjust (up : Bool)
  | bottomLineAdjust
  | addItem
  | removeItem (index : ℕ)
  | applyRates
  | setOverheadPercent (v : ℚ)
  | setContingencyPercent (v : ℚ)
  | setRegion (r : Region)

/-- One state transition of the App: each handler is a no-op when no quote is
loaded (`if (!quote) return`), otherwise it replaces the quote as the source
does, reading the current percentages and the region's TAX_RATES entry. -/
def step (s : AppState) (op : QuoteOp) : AppState :=
  let o := s.overheadPercent
  let c := s.contingencyPercent
  let t := TAX_RATES s.region
  match op with
  | .itemChange index e =>
      { s with quote := s.quote.map fun q => handleItemChange o c t q index e }
  | .rateAdjust index up =>
      { s with quote := s.quote.map fun q =>
          handleRateAdjust o c t s.rateAdjustPercent q index up }
  | .globalRateAdjust up =>
      { s with quote := s.quote.map fun q =>
          handleGlobalRateAdjust o c t s.rateAdjustPercent q up }
  | .bottomLineAdjust =>
      { s with quote := s.quote.map fun q => handleBottomLineAdjust o c t q s.targetTotal
               targetTotal := none }
  | .addItem =>
      { s with quote := s.quote.map fun q => addManualItem o c t q }
  | .removeItem index =>
      { s with quote := s.quote.map fun q => handleRemoveItem o c t q index }
  | .applyRates =>
      { s with quote := s.quote.map fun q => applyContractorRates o c t s.contractorRates q }
  | .setOverheadPercent v =>
      { s with overheadPercent := v
               quote := s.quote.map fun q => recalculateQuote v c t (some q) q.lineItems none
               targetTotal := none }
  | .setContingencyPercent v =>
      { s with contingencyPercent := v
               quote := s.quote.map fun q => recalculateQuote o v t (some q) q.lineItems none
               targetTotal := none }
  | .setRegion r =>
      { s with region := r
               quote := s.quote.map fun q =>
                 recalculateQuote o c (TAX_RATES r) (some q) q.lineItems none
               targetTotal := none }

/-- The summary equations claimed for every reachable quote state. -/
def summaryConsistent (o c t : ℚ) (q : Quote) : Prop :=
  q.summary.subtotal = (q.lineItems.map LineItem.total).sum
  ∧ q.summary.overhead = q.summary.subtotal * (o / 100)
  ∧ q.summary.contingency = q.summary.subtotal * (c / 100)
  ∧ q.summary.tax
      = (q.summary.subtotal + q.summary.overhead + q.summary.contingency) * (t / 100)
  ∧ q.summary.grandTotal
      = q.summary.subtotal + q.summary.overhead + q.summary.contingency + q.summary.tax

/-- A state is consistent when its loaded quote (if any) satisfies the
summary equations for the current percentages and regional tax rate. -/
def consistentState (s : AppState) : Prop :=
  ∀ q : Quote, s.quote = some q →
    summaryConsistent s.overheadPercent s.contingencyPercent (TAX_RATES s.region) q

/-- What a numeric edit of the total field leaves in the row, per the spec:
total becomes the entered value, rate becomes total/quantity unless the
quantity is zero, in which case rate keeps its prior value. -/
def totalEditResult (it : LineItem) (v : ℚ) : LineItem :=
  { it with
    total := v
    rate := if it.quantity = 0 then it.rate else v / it.quantity }

/-- A concrete quote with one consistent row (quantity 2, rate 3, total 6). -/
def exQuoteC4 : Quote :=
  recalculateQuote 7.5 5 (TAX_RATES Region.QC_MONTREAL) none
    [{ item := "A", quantity := 2, unit := "sqft", rate := 3, total := 6 }] none

/-- A concrete quote whose single row is inconsistent (total 10 but
quantity 0 × rate 0 = 0), as produced by editing total while quantity is 0. -/
def exQuoteC5 : Quote :=
  { lineItems := [{ item := "A", quantity := 0, unit := "each", rate := 0, total := 10 }]
    summary :=
      (recalculateQuote 7.5 5 (TAX_RATES Region.QC_MONTREAL) none
        [{ item := "A", quantity := 0, unit := "each", rate := 0, total := 10 }] none).summary }

/-- A quote in the degenerate percentage setting overhead = -100 %,
contingency = 0 %: its pre-tax multiplier 1 + (-100)/100 + 0/100 is zero. -/
def exQuoteC3 : Quote :=
  recalculateQuote (-100) 0 (TAX_RATES Region.QC_MONTREAL) none
    [{ item := "A", quantity := 1, unit := "each", rate := 1, total := 1 }] none

/-- The empty quote: its subtotal is zero. -/
def exQuoteZero : Quote :=
  recalculateQuote 7.5 5 (TAX_RATES Region.QC_MONTREAL) none [] none

/-- Concrete saved projects for the C8 witness. -/
def exProjA : SavedProject :=
  { id := "1", name := "B kitchen", filePreview := "", fileName := "a.jpg"
    fileType := "image/jpeg", roomType := "Kitchen", region := "QC_MONTREAL"
    scope := "paint", quote := none, overheadPercent := 7.5, contingencyPercent := 5 }

/-- A second saved project, under id "2". -/
def exProjB : SavedProject :=
  { id := "2", name := "A bath", filePreview := "", fileName := "b.jpg"
    fileType := "image/jpeg", roomType := "Bathroom", region := "NYC"
    scope := "tile", quote := none, overheadPercent := 10, contingencyPercent := 5 }

/-- The new snapshot saved under the existing id "2". -/
def exProjB2 : SavedProject :=
  { exProjB with name := "A bath v2", scope := "tile and paint" }

/-- A concrete consistent App state holding exQuoteC4 under the same
percentages and region the quote was computed with. -/
def exState : AppState :=
  { quote := some exQuoteC4, overheadPercent := 7.5, contingencyPercent := 5
    region := Region.QC_MONTREAL, rateAdjustPercent := 5, contractorRates := []
    targetTotal := none }

end PPJobQuote

namespace PPJobQuote

/-- `reduce((acc, item) => acc + item.total, 0)` computes the sum of the totals. -/
theorem foldl_total_eq_sum (l : List LineItem) (a : ℚ) :
    l.foldl (fun acc item => acc + item.total) a = a + (l.map LineItem.total).sum := by
  induction l generalizing a with
  | nil => simp
  | cons x xs ih => simp [List.foldl_cons, ih, add_assoc]

/-- The subtotal recalculateQuote computes is the sum of the item totals. -/
theorem recalc_subtotal_eq (o c t : ℚ) (pq : Option Quote)
    (items : List LineItem) (d : Option String) :
    (recalculateQuote o c t pq items d).summary.subtotal
      = (items.map LineItem.total).sum := by
  simp [recalculateQuote, foldl_total_eq_sum]

/-- The grand total recalculateQuote computes, as a product of the sum of the
item totals with the pre-tax and tax multipliers. -/
theorem recalc_grand_eq (o c t : ℚ) (pq : Option Quote)
    (items : List LineItem) (d : Option String) :
    (recalculateQuote o c t pq items d).summary.grandTotal
      = (items.map LineItem.total).sum * (1 + o / 100 + c / 100) * (1 + t / 100) := by
  simp only [recalculateQuote, foldl_total_eq_sum]
  ring

/-- Every quote recalculateQuote produces satisfies the summary equations. -/
theorem recalc_consistent (o c t : ℚ) (pq : Option Quote)
    (items : List LineItem) (d : Option String) :
    summaryConsistent o c t (recalculateQuote o c t pq items d) :=
  ⟨recalc_subtotal_eq o c t pq items d, rfl, rfl, rfl, rfl⟩

/-- C1: for every list of line items and every percentage setting, the summary
produced by recalculateQuote has subtotal equal to the sum of the total fields
of the line items, exactly. -/
theorem recalculateQuote_subtotal_sum
    (overheadPercent contingencyPercent currentTaxRate : ℚ)
    (prevQuote : Option Quote) (lineItems : List LineItem) (disclaimer : Option String) :
    (recalculateQuote overheadPercent contingencyPercent currentTaxRate
        prevQuote lineItems disclaimer).summary.subtotal
      = (lineItems.map LineItem.total).sum :=
  recalc_subtotal_eq overheadPercent contingencyPercent currentTaxRate
    prevQuote lineItems disclaimer

/-- C2: the stepwise grand total of recalculateQuote (overhead, contingency,
pre-tax total, tax) equals the closed form
subtotal × (1 + overhead%/100 + contingency%/100) × (1 + tax%/100),
under exact arithmetic. -/
theorem recalculateQuote_grandTotal_closed_form
    (overheadPercent contingencyPercent currentTaxRate : ℚ)
    (prevQuote : Option Quote) (lineItems : List LineItem) (disclaimer : Option String) :
    (recalculateQuote overheadPercent contingencyPercent currentTaxRate
        prevQuote lineItems disclaimer).summary.grandTotal
      = (recalculateQuote overheadPercent contingencyPercent currentTaxRate
          prevQuote lineItems disclaimer).summary.subtotal
        * (1 + overheadPercent / 100 + contingencyPercent / 100)
        * (1 + currentTaxRate / 100) := by
  rw [recalc_grand_eq, recalc_subtotal_eq]

/-- C6: with the line items and the overhead and contingency percentages held
fixed, recalculating under two different regions (hence two different
TAX_RATES entries) yields identical subtotal, overhead and contingency;
only tax and grandTotal may differ. -/
theorem recalculateQuote_region_frame
    (overheadPercent contingencyPercent : ℚ) (r₁ r₂ : Region)
    (prevQuote : Option Quote) (lineItems : List LineItem) (disclaimer : Option String) :
    (recalculateQuote overheadPercent contingencyPercent (TAX_RATES r₁)
        prevQuote lineItems disclaimer).summary.subtotal
      = (recalculateQuote overheadPercent contingencyPercent (TAX_RATES r₂)
          prevQuote lineItems disclaimer).summary.subtotal
    ∧ (recalculateQuote overheadPercent contingencyPercent (TAX_RATES r₁)
        prevQuote lineItems disclaimer).summary.overhead
      = (recalculateQuote overheadPercent contingencyPercent (TAX_RATES r₂)
          prevQuote lineItems disclaimer).summary.overhead
    ∧ (recalculateQuote overheadPercent contingencyPercent (TAX_RATES r₁)
        prevQuote lineItems disclaimer).summary.contingency
      = (recalculateQuote overheadPercent contingencyPercent (TAX_RATES r₂)
          prevQuote lineItems disclaimer).summary.contingency :=
  ⟨rfl, rfl, rfl⟩

/-- C4: editing a line item's total field with a numeric value sets total to
that value and back-computes rate as total/quantity when the quantity is
non-zero, leaving rate unchanged when the quantity is zero (the guarded
division is never taken with a zero divisor); the other fields are untouched. -/
theorem handleItemChange_total_backcompute
    (o c t : ℚ) (q : Quote) (i : ℕ) (v : ℚ) (h : i < q.lineItems.length) :
    (handleItemChange o c t q i (FieldEdit.total (some v))).lineItems.get? i
      = some (totalEditResult (q.lineItems.getD i dItem) v) := by
  have hget : q.lineItems.get? i = some (q.lineItems.getD i dItem) := by
    rw [List.get?_eq_getElem?, List.getElem?_eq_getElem h, List.getD_eq_getElem _ _ h]
  rw [handleItemChange, hget]
  simp only [recalculateQuote, List.get?_eq_getElem?]
  rw [List.getElem?_set_self (by simpa using h)]
  simp only [applyItemEdit, totalEditResult, List.getD_eq_getElem?_getD]
  by_cases hq : (q.lineItems[i]?.getD dItem).quantity = 0
  · simp [hq]
  · simp [hq]

/-- Witness for C4 at a concrete quote, index and value. -/
theorem handleItemChange_total_backcompute_witness :
    (0 : ℕ) < exQuoteC4.lineItems.length
    ∧ (handleItemChange 7.5 5 (TAX_RATES Region.QC_MONTREAL) exQuoteC4 0
          (FieldEdit.total (some 10))).lineItems.get? 0
        = some (totalEditResult (exQuoteC4.lineItems.getD 0 dItem) 10) :=
  ⟨by decide,
   handleItemChange_total_backcompute 7.5 5 (TAX_RATES Region.QC_MONTREAL)
     exQuoteC4 0 10 (by decide)⟩

/-- C7: editing a line item's quantity or rate field with a numeric value sets
that item's total to the product of its updated quantity and rate. -/
theorem handleItemChange_total_product
    (o c t : ℚ) (q : Quote) (i : ℕ) (e : FieldEdit) (v : ℚ)
    (h : i < q.lineItems.length)
    (he : e = FieldEdit.quantity (some v) ∨ e = FieldEdit.rate (some v)) :
    ((handleItemChange o c t q i e).lineItems.getD i dItem).total
      = ((handleItemChange o c t q i e).lineItems.getD i dItem).quantity
        * ((handleItemChange o c t q i e).lineItems.getD i dItem).rate := by
  have hget : q.lineItems.get? i = some (q.lineItems.getD i dItem) := by
    rw [List.get?_eq_getElem?, List.getElem?_eq_getElem h, List.getD_eq_getElem _ _ h]
  rcases he with rfl | rfl <;>
  · rw [handleItemChange, hget]
    simp only [recalculateQuote]
    rw [List.getD_eq_getElem _ _ (by simpa using h), List.getElem_set_self (by simpa using h)]
    simp [applyItemEdit]

/-- Witness for C7 at a concrete quote, index and value. -/
theorem handleItemChange_total_product_witness :
    (0 : ℕ) < exQuoteC4.lineItems.length
    ∧ ((handleItemChange 7.5 5 (TAX_RATES Region.QC_MONTREAL) exQuoteC4 0
          (FieldEdit.quantity (some 4))).lineItems.getD 0 dItem).total
        = ((handleItemChange 7.5 5 (TAX_RATES Region.QC_MONTREAL) exQuoteC4 0
            (FieldEdit.quantity (some 4))).lineItems.getD 0 dItem).quantity
          * ((handleItemChange 7.5 5 (TAX_RATES Region.QC_MONTREAL) exQuoteC4 0
              (FieldEdit.quantity (some 4))).lineItems.getD 0 dItem).rate :=
  ⟨by decide,
   handleItemChange_total_product 7.5 5 (TAX_RATES Region.QC_MONTREAL)
     exQuoteC4 0 (FieldEdit.quantity (some 4)) 4 (by decide) (Or.inl rfl)⟩

/-- Counterexample to C5 as stated: on the row with quantity 0, rate 0,
total 10, an edit of the quantity field whose value parses to NaN is not a
no-op — the derived recomputation still runs and rewrites total to
quantity × rate = 0, so the prior total 10 is lost. -/
theorem handleItemChange_nan_changes_total :
    ((handleItemChange 7.5 5 (TAX_RATES Region.QC_MONTREAL) exQuoteC5 0
        (FieldEdit.quantity none)).lineItems.getD 0 dItem).total
      ≠ (exQuoteC5.lineItems.getD 0 dItem).total := by
  norm_num [handleItemChange, exQuoteC5, recalculateQuote, applyItemEdit, dItem]

/-- A NaN-valued numeric edit leaves a row untouched provided the row already
satisfies total = quantity × rate. -/
theorem applyItemEdit_nan_id (it : LineItem) (e : FieldEdit)
    (he : e = FieldEdit.quantity none ∨ e = FieldEdit.rate none ∨ e = FieldEdit.total none)
    (hinv : it.total = it.quantity * it.rate) :
    applyItemEdit it e = it := by
  rcases he with rfl | rfl | rfl
  · show { it with total := it.quantity * it.rate } = it
    rw [← hinv]
  · show { it with total := it.quantity * it.rate } = it
    rw [← hinv]
  · show (if it.quantity ≠ 0 then { it with rate := it.total / it.quantity } else it) = it
    by_cases hq : it.quantity = 0
    · simp [hq]
    · rw [if_pos hq]
      have hr : it.total / it.quantity = it.rate := by
        rw [hinv, mul_div_cancel_left₀ _ hq]
      rw [hr]

/-- C5 amended: an edit whose value parses to NaN does not write the targeted
field and reports no error; and whenever the row satisfies the app's own
invariant total = quantity × rate, the whole row is left with its prior
values. (Unconditionally the claim fails: the derived recomputation still
runs, see the counterexample.) -/
theorem handleItemChange_nan_keeps_item
    (o c t : ℚ) (q : Quote) (i : ℕ) (e : FieldEdit)
    (h : i < q.lineItems.length)
    (he : e = FieldEdit.quantity none ∨ e = FieldEdit.rate none ∨ e = FieldEdit.total none)
    (hinv : (q.lineItems.getD i dItem).total
      = (q.lineItems.getD i dItem).quantity * (q.lineItems.getD i dItem).rate) :
    (handleItemChange o c t q i e).lineItems.getD i dItem = q.lineItems.getD i dItem := by
  have hget : q.lineItems.get? i = some (q.lineItems.getD i dItem) := by
    rw [List.get?_eq_getElem?, List.getElem?_eq_getElem h, List.getD_eq_getElem _ _ h]
  rw [handleItemChange, hget]
  simp only [recalculateQuote]
  rw [applyItemEdit_nan_id _ _ he hinv]
  rw [List.getD_eq_getElem _ _ (by simpa using h), List.getElem_set_self (by simpa using h)]

/-- Witness for the amended C5 at a concrete consistent quote. -/
theorem handleItemChange_nan_keeps_item_witness :
    (handleItemChange 7.5 5 (TAX_RATES Region.QC_MONTREAL) exQuoteC4 0
        (FieldEdit.rate none)).lineItems.getD 0 dItem
      = exQuoteC4.lineItems.getD 0 dItem :=
  handleItemChange_nan_keeps_item 7.5 5 (TAX_RATES Region.QC_MONTREAL) exQuoteC4 0
    (FieldEdit.rate none) (by decide) (Or.inr (Or.inl rfl))
    (by norm_num [exQuoteC4, recalculateQuote, dItem])

/-- Counterexample to C3 as stated: with overhead percent -100 and contingency
percent 0 (reachable through the overhead input) the pre-tax multiplier is 0,
so the reverse adjustment divides by zero; at subtotal 1 ≠ 0 and positive
target 1 the resulting grand total is 0, not the target. -/
theorem bottomLineAdjust_deg_counterexample :
    exQuoteC3.summary.subtotal ≠ 0 ∧ (0 : ℚ) < 1 ∧
    (handleBottomLineAdjust (-100) 0 (TAX_RATES Region.QC_MONTREAL) exQuoteC3
        (some 1)).summary.grandTotal ≠ 1 := by
  norm_num [handleBottomLineAdjust, exQuoteC3, recalculateQuote, TAX_RATES]

/-- C3 amended: under exact arithmetic the reverse set-grand-total operation
reaches the target provided additionally (i) the quote's summary subtotal
agrees with the sum of the item totals (true of every quote recalculateQuote
produces) and (ii) the pre-tax multiplier 1 + overhead%/100 + contingency%/100
is non-zero (the counterexample shows the claim fails when it is zero); the
tax multiplier is always non-zero because TAX_RATES only holds positive
rates. When the current subtotal is zero the operation is a no-op on the
quote. -/
theorem bottomLineAdjust_hits_target (o c : ℚ) (r : Region) (q : Quote) (T : ℚ)
    (hcons : q.summary.subtotal = (q.lineItems.map LineItem.total).sum)
    (hs : q.summary.subtotal ≠ 0) (hT : 0 < T)
    (hm : 1 + o / 100 + c / 100 ≠ 0) :
    (handleBottomLineAdjust o c (TAX_RATES r) q (some T)).summary.grandTotal = T
    ∧ ∀ q₀ : Quote, q₀.summary.subtotal = 0 →
        handleBottomLineAdjust o c (TAX_RATES r) q₀ (some T) = q₀ := by
  have htax : (1 : ℚ) + TAX_RATES r / 100 ≠ 0 := by
    cases r <;> norm_num [TAX_RATES]
  constructor
  · rw [handleBottomLineAdjust]
    rw [if_neg (not_le.mpr hT), if_neg hs]
    have hscale : ∀ k : ℚ,
        (q.lineItems.map (fun item =>
          LineItem.total { item with rate := item.rate * k, total := item.total * k })).sum
          = (q.lineItems.map LineItem.total).sum * k := by
      intro k
      rw [← List.sum_map_mul_right]
    rw [recalc_grand_eq]
    simp only [List.map_map, Function.comp_def, hscale, ← hcons]
    calc q.summary.subtotal
          * (T / (1 + TAX_RATES r / 100) / (1 + o / 100 + c / 100) / q.summary.subtotal)
          * (1 + o / 100 + c / 100) * (1 + TAX_RATES r / 100)
        = T / (1 + TAX_RATES r / 100) / (1 + o / 100 + c / 100) / q.summary.subtotal
          * q.summary.subtotal * (1 + o / 100 + c / 100) * (1 + TAX_RATES r / 100) := by
          ring
      _ = T / (1 + TAX_RATES r / 100) / (1 + o / 100 + c / 100)
          * (1 + o / 100 + c / 100) * (1 + TAX_RATES r / 100) := by
          rw [div_mul_cancel₀ _ hs]
      _ = T / (1 + TAX_RATES r / 100) * (1 + TAX_RATES r / 100) := by
          rw [div_mul_cancel₀ _ hm]
      _ = T := div_mul_cancel₀ _ htax
  · intro q₀ h₀
    rw [handleBottomLineAdjust]
    rw [if_neg (not_le.mpr hT), if_pos h₀]

/-- Witness for the amended C3: at overhead 7.5 %, contingency 5 %, Montreal
tax and target 100 the adjusted grand total is exactly 100, and on the empty
quote the operation is a no-op. -/
theorem bottomLineAdjust_hits_target_witness :
    (handleBottomLineAdjust 7.5 5 (TAX_RATES Region.QC_MONTREAL) exQuoteC4
        (some 100)).summary.grandTotal = 100
    ∧ handleBottomLineAdjust 7.5 5 (TAX_RATES Region.QC_MONTREAL) exQuoteZero
        (some 100) = exQuoteZero := by
  have h := bottomLineAdjust_hits_target 7.5 5 Region.QC_MONTREAL exQuoteC4 100
    (by norm_num [exQuoteC4, recalculateQuote]) (by norm_num [exQuoteC4, recalculateQuote])
    (by norm_num) (by norm_num)
  exact ⟨h.1, h.2 exQuoteZero (by norm_num [exQuoteZero, recalculateQuote])⟩

/-- C10: a reverse set-grand-total request whose input parses to NaN or is not
positive leaves the quote entirely unchanged: no line item and no summary
field is modified. -/
theorem bottomLineAdjust_rejected_noop (o c t : ℚ) (q : Quote) :
    handleBottomLineAdjust o c t q none = q
    ∧ ∀ T : ℚ, T ≤ 0 → handleBottomLineAdjust o c t q (some T) = q := by
  refine ⟨rfl, fun T hT => ?_⟩
  rw [handleBottomLineAdjust, if_pos hT]

/-- Witness for C10 at a concrete quote and the non-positive target -3. -/
theorem bottomLineAdjust_rejected_noop_witness :
    handleBottomLineAdjust 7.5 5 (TAX_RATES Region.QC_MONTREAL) exQuoteC4
        (some (-3)) = exQuoteC4 :=
  (bottomLineAdjust_rejected_noop 7.5 5 (TAX_RATES Region.QC_MONTREAL) exQuoteC4).2
    (-3) (by norm_num)

/-- The saved list before and after saveProject differ by a permutation of
filter-then-append. -/
theorem saveProject_perm (l : List SavedProject) (np : SavedProject) :
    (saveProject l np).Perm ((l.filter fun p => p.id ≠ np.id) ++ [np]) :=
  List.mergeSort_perm _ _

/-- C8: after a save, the saved list holds exactly one project with the new id
and it is the new snapshot; every project with a different id occurs exactly
as often as before (present and unchanged); and when the id is fresh the list
grows by exactly one entry. -/
theorem saveProject_id_semantics (l : List SavedProject) (np : SavedProject) :
    ((saveProject l np).filter fun p => p.id = np.id) = [np]
    ∧ (∀ p : SavedProject, p.id ≠ np.id → (saveProject l np).count p = l.count p)
    ∧ ((∀ p ∈ l, p.id ≠ np.id) → (saveProject l np).length = l.length + 1) := by
  refine ⟨?_, ?_, ?_⟩
  · have hp := (saveProject_perm l np).filter fun p => decide (p.id = np.id)
    have h2 : List.filter (fun p => decide (p.id = np.id))
        ((List.filter (fun p => decide (p.id ≠ np.id)) l) ++ [np]) = [np] := by
      rw [List.filter_append, List.filter_filter]
      have e1 : List.filter (fun a => decide (a.id = np.id) && decide (a.id ≠ np.id)) l = [] :=
        List.filter_eq_nil_iff.mpr (by simp)
      have e2 : List.filter (fun p => decide (p.id = np.id)) [np] = [np] := by simp
      rw [e1, e2, List.nil_append]
    rw [h2] at hp
    exact List.perm_singleton.mp hp
  · intro p hne
    rw [(saveProject_perm l np).count_eq, List.count_append]
    have h1 : List.count p [np] = 0 := by
      rw [List.count_eq_zero]
      simp only [List.mem_singleton]
      intro h
      apply hne
      rw [h]
    rw [h1, List.count_filter (by simpa using hne), Nat.add_zero]
  · intro hall
    rw [(saveProject_perm l np).length_eq, List.length_append]
    rw [List.filter_eq_self.mpr (by simpa using hall)]
    simp

/-- Witness for C8: re-saving under id "2" keeps exactly the new snapshot for
that id and leaves the count of the other project unchanged. -/
theorem saveProject_id_semantics_witness :
    ((saveProject [exProjA, exProjB] exProjB2).filter fun p => p.id = exProjB2.id) = [exProjB2]
    ∧ (saveProject [exProjA, exProjB] exProjB2).count exProjA
        = ([exProjA, exProjB] : List SavedProject).count exProjA :=
  ⟨(saveProject_id_semantics [exProjA, exProjB] exProjB2).1,
   (saveProject_id_semantics [exProjA, exProjB] exProjB2).2.1 exProjA (by decide)⟩

/-- handleItemChange preserves the summary equations. -/
theorem handleItemChange_consistent (o c t : ℚ) (q : Quote) (i : ℕ) (e : FieldEdit)
    (h : summaryConsistent o c t q) :
    summaryConsistent o c t (handleItemChange o c t q i e) := by
  rw [handleItemChange]
  cases q.lineItems.get? i with
  | none => exact h
  | some it => exact recalc_consistent o c t (some q) _ none

/-- handleRateAdjust preserves the summary equations. -/
theorem handleRateAdjust_consistent (o c t a : ℚ) (q : Quote) (i : ℕ) (up : Bool)
    (h : summaryConsistent o c t q) :
    summaryConsistent o c t (handleRateAdjust o c t a q i up) := by
  rw [handleRateAdjust]
  cases q.lineItems.get? i with
  | none => exact h
  | some it => exact recalc_consistent o c t (some q) _ none

/-- handleBottomLineAdjust preserves the summary equations. -/
theorem handleBottomLineAdjust_consistent (o c t : ℚ) (q : Quote) (target : Option ℚ)
    (h : summaryConsistent o c t q) :
    summaryConsistent o c t (handleBottomLineAdjust o c t q target) := by
  cases target with
  | none => exact h
  | some T =>
      rw [handleBottomLineAdjust]
      by_cases h1 : T ≤ 0
      · rw [if_pos h1]; exact h
      · rw [if_neg h1]
        by_cases h2 : q.summary.subtotal = 0
        · rw [if_pos h2]; exact h
        · rw [if_neg h2]; exact recalc_consistent o c t (some q) _ none

/-- applyContractorRates preserves the summary equations. -/
theorem applyContractorRates_consistent (o c t : ℚ)
    (rates : List (String × ContractorRate)) (q : Quote)
    (h : summaryConsistent o c t q) :
    summaryConsistent o c t (applyContractorRates o c t rates q) := by
  rw [applyContractorRates]
  by_cases hr : rates = []
  · rw [if_pos hr]; exact h
  · rw [if_neg hr]; exact recalc_consistent o c t (some q) _ none

/-- C9: every quote-producing operation routes its line items through
recalculateQuote, so from any consistent state (in particular from the
initial no-quote state) each step yields a state whose summary satisfies
subtotal = Σ totals, overhead = subtotal × o/100, contingency =
subtotal × c/100, tax = (subtotal + overhead + contingency) × t/100 and
grandTotal = subtotal + overhead + contingency + tax for the current
percentage settings and regional tax rate. -/
theorem step_preserves_consistentState (s : AppState) (op : QuoteOp)
    (h : consistentState s) : consistentState (step s op) := by
  cases op with
  | itemChange index e =>
      intro q hq
      simp only [step, Option.map_eq_some'] at hq ⊢
      obtain ⟨q₀, hq₀, rfl⟩ := hq
      exact handleItemChange_consistent _ _ _ q₀ index e (h q₀ hq₀)
  | rateAdjust index up =>
      intro q hq
      simp only [step, Option.map_eq_some'] at hq ⊢
      obtain ⟨q₀, hq₀, rfl⟩ := hq
      exact handleRateAdjust_consistent _ _ _ _ q₀ index up (h q₀ hq₀)
  | globalRateAdjust up =>
      intro q hq
      simp only [step, Option.map_eq_some'] at hq ⊢
      obtain ⟨q₀, hq₀, rfl⟩ := hq
      exact recalc_consistent _ _ _ (some q₀) _ none
  | bottomLineAdjust =>
      intro q hq
      simp only [step, Option.map_eq_some'] at hq ⊢
      obtain ⟨q₀, hq₀, rfl⟩ := hq
      exact handleBottomLineAdjust_consistent _ _ _ q₀ s.targetTotal (h q₀ hq₀)
  | addItem =>
      intro q hq
      simp only [step, Option.map_eq_some'] at hq ⊢
      obtain ⟨q₀, hq₀, rfl⟩ := hq
      exact recalc_consistent _ _ _ (some q₀) _ none
  | removeItem index =>
      intro q hq
      simp only [step, Option.map_eq_some'] at hq ⊢
      obtain ⟨q₀, hq₀, rfl⟩ := hq
      exact recalc_consistent _ _ _ (some q₀) _ none
  | applyRates =>
      intro q hq
      simp only [step, Option.map_eq_some'] at hq ⊢
      obtain ⟨q₀, hq₀, rfl⟩ := hq
      exact applyContractorRates_consistent _ _ _ s.contractorRates q₀ (h q₀ hq₀)
  | setOverheadPercent v =>
      intro q hq
      simp only [step, Option.map_eq_some'] at hq ⊢
      obtain ⟨q₀, hq₀, rfl⟩ := hq
      exact recalc_consistent _ _ _ (some q₀) _ none
  | setContingencyPercent v =>
      intro q hq
      simp only [step, Option.map_eq_some'] at hq ⊢
      obtain ⟨q₀, hq₀, rfl⟩ := hq
      exact recalc_consistent _ _ _ (some q₀) _ none
  | setRegion r =>
      intro q hq
      simp only [step, Option.map_eq_some'] at hq ⊢
      obtain ⟨q₀, hq₀, rfl⟩ := hq
      exact recalc_consistent _ _ _ (some q₀) _ none

/-- Witness for C9: the concrete consistent state exState stays consistent
after a rate edit. -/
theorem step_preserves_consistentState_witness :
    consistentState (step exState (QuoteOp.itemChange 0 (FieldEdit.rate (some 4)))) :=
  step_preserves_consistentState exState (QuoteOp.itemChange 0 (FieldEdit.rate (some 4)))
    (by
      intro q hq
      rw [show exState.quote = some exQuoteC4 from rfl] at hq
      cases hq
      exact recalc_consistent 7.5 5 (TAX_RATES Region.QC_MONTREAL) none _ none)

end PPJobQuote
